import Mathlib

/-!
Shallow embedding of src/django/publicmapping/setup.py (DistrictBuilder
setup script): the configuration validation pipeline (validate_config),
the settings generator (merge_config) and the report template generator
(create_report_templates), together with theorems about them.

External effects are made explicit:
  - file existence / parse success of the schema and config files are
    Boolean parameters of validate_config;
  - the XSD validation verdict of the lxml XMLSchema object is a Boolean
    parameter (the XSD semantics is a library call, not code of this repo);
  - the settings template file settings.py.in is a list of its lines;
  - the PRNG behind random.choice is a stream of naturals;
  - success of the XSLT load and of template-file writes in
    create_report_templates are Boolean parameters.
Python exceptions are modelled by the type PyExc; a write to settings.py
is an element of a list of written strings, in write order.
-/

/-- An XML element as seen through lxml: a tag, an attribute list and a
list of child elements.  Text content is irrelevant to setup.py and is
not modelled. -/
inductive XMLElem : Type where
  | node (tag : String) (attrs : List (String × String)) (children : List XMLElem)

namespace XMLElem

/-- The tag of an element. -/
def tagName : XMLElem → String
  | node t _ _ => t

/-- The attribute list of an element. -/
def attrList : XMLElem → List (String × String)
  | node _ a _ => a

/-- The child elements of an element. -/
def childList : XMLElem → List XMLElem
  | node _ _ c => c

end XMLElem

/-- Element.get(key): the value of an attribute, None when absent. -/
def getA (e : XMLElem) (k : String) : Option String :=
  (e.attrList.find? (fun p => p.fst == k)).map Prod.snd

/-- Element.get(key, dflt): attribute lookup with a default. -/
def getAD (e : XMLElem) (k dflt : String) : String :=
  (getA e k).getD dflt

mutual

/-- All elements of the subtree rooted at an element, the root included,
in document order: the search space of an xpath starting with
a double slash. -/
def descendants : XMLElem → List XMLElem
  | .node t a cs => .node t a cs :: descendantsList cs
termination_by structural e => e

/-- descendants, mapped over a list of sibling subtrees. -/
def descendantsList : List XMLElem → List XMLElem
  | [] => []
  | c :: cs => descendants c ++ descendantsList cs
termination_by structural l => l

end

/-- xpath of the form a double slash followed by one tag: every element
of the document whose tag matches. -/
def xpathTag (t : XMLElem) (tg : String) : List XMLElem :=
  (descendants t).filter (fun e => e.tagName == tg)

/-- One child step of an xpath: the children with a given tag of each
element of a node set, in order. -/
def childStep (es : List XMLElem) (tg : String) : List XMLElem :=
  (es.flatMap XMLElem.childList).filter (fun e => e.tagName == tg)

/-- xpath with a double slash, a tag, a slash and a second tag, as in
the Project/Database lookup of merge_config. -/
def xpathTag2 (t : XMLElem) (tg1 tg2 : String) : List XMLElem :=
  childStep (xpathTag t tg1) tg2

/-- The exceptions setup.py can raise.  Every constructor models a
subclass of Exception, so the catch-all except clause of merge_config
catches each of them. -/
inductive PyExc : Type where
  | nameError (n : String)
  | indexError
  | typeError
  | valueError
  | attributeError
  | ioError
deriving DecidableEq

/-- Python indexing nodeset[0]: IndexError on an empty node set. -/
def pyIndex0 (l : List XMLElem) : Except PyExc XMLElem :=
  match l with
  | [] => .error .indexError
  | e :: _ => .ok e

/-- The value of one decimal digit character, read off its code point;
characters outside the ASCII digits yield none. -/
def digitVal (c : Char) : Option Nat :=
  if 48 ≤ c.toNat && c.toNat ≤ 57 then some (c.toNat - 48) else none

/-- A run of decimal digits folded into a natural number. -/
def natOfDigits : List Char → Nat → Option Nat
  | [], acc => some acc
  | c :: cs, acc =>
    match digitVal c with
    | none => none
    | some d => natOfDigits cs (acc * 10 + d)

/-- Python int() of a string: an optional sign followed by at least one
ASCII digit (the whitespace and base tolerance of the Python parser is
immaterial to the attribute values of setup.py and is not modelled). -/
def pyParseInt (s : String) : Option Int :=
  match s.toList with
  | [] => none
  | '-' :: [] => none
  | '-' :: c :: cs => (natOfDigits (c :: cs) 0).map (fun n => -(n : Int))
  | '+' :: [] => none
  | '+' :: c :: cs => (natOfDigits (c :: cs) 0).map (fun n => (n : Int))
  | cs => (natOfDigits cs 0).map (fun n => (n : Int))

/-- Python int(s) on a string: ValueError when the string is not an
integer literal. -/
def pyIntS (s : String) : Except PyExc Int :=
  match pyParseInt s with
  | some i => .ok i
  | none => .error .valueError

/-- Python int(x) where x is an attribute value: int(None) raises
TypeError, int(s) parses. -/
def pyIntO : Option String → Except PyExc Int
  | none => .error .typeError
  | some s => pyIntS s

/-- Python string interpolation of an attribute value: None prints as
the four letters None. -/
def pyStr (o : Option String) : String :=
  o.getD "None"

/-- Python truthiness of an attribute value: None and the empty string
are falsy. -/
def pyFalsy (o : Option String) : Bool :=
  match o with
  | none => true
  | some s => s == ""

/-!
validate_config (setup.py lines 129-241).
-/

/-- The console messages validate_config can print, one constructor per
print statement of the source, in source order. -/
inductive Msg : Type where
  | errSchemaFileMissing
  | errConfigFileMissing
  | errSchemaParse
  | errConfigParse
  | tracebackNote
  | tracebackText
  | parsedNotValid
  | schemaErrorDetail
  | parsedAndValidated
  | errMismatchedLB
  | errMismatchedSubject
  | documentValidated
deriving DecidableEq

/-- The checking phases of validate_config, recorded when the
corresponding code region runs: the XMLSchema.validate call (line 188),
the LegislativeBody ref/id loop (lines 199-217) and the Subject ref/id
loop (lines 219-236). -/
inductive Check : Type where
  | schemaCheck
  | lbRefCheck
  | subjectRefCheck
deriving DecidableEq

/-- What one run of validate_config does: its return value (the parsed
tree on success, none where the source returns False), the console
messages printed, and the checking phases that ran. -/
structure ValidateRun where
  result : Option XMLElem
  prints : List Msg
  checks : List Check

/-- All elements of a given tag carrying a ref attribute:
the xpath with the tag filtered by presence of ref. -/
def refTags (t : XMLElem) (tg : String) : List XMLElem :=
  (descendants t).filter (fun e => e.tagName == tg && (getA e "ref").isSome)

/-- All elements of a given tag carrying an id attribute:
the xpath with the tag filtered by presence of id. -/
def idTags (t : XMLElem) (tg : String) : List XMLElem :=
  (descendants t).filter (fun e => e.tagName == tg && (getA e "id").isSome)

/-- The inner loop of the ref/id check: found, initially False, or-ed
with the comparison of the ref value against each id value. -/
def findMatch (ids : List XMLElem) (r : XMLElem) : Bool :=
  ids.foldl (fun found i => found || (getA r "ref" == getA i "id")) false

/-- The outer loop of the ref/id check: returns False at the first ref
without a match, True when the loop completes. -/
def checkRefs (refs ids : List XMLElem) : Bool :=
  match refs with
  | [] => true
  | r :: rest => if findMatch ids r then checkRefs rest ids else false

/-- validate_config, with the external effects as parameters: schExists
and cfgExists model the two exists() tests, schParseOk the parse of the
schema file, cfgTree the parse of the config file (none on a parse
error), schemaValid the verdict of XMLSchema.validate on the config. -/
def validate_config (schExists cfgExists schParseOk : Bool)
    (cfgTree : Option XMLElem) (schemaValid : Bool) (verbose : Nat) :
    ValidateRun :=
  if schExists = false then
    ⟨none, if verbose > 0 then [.errSchemaFileMissing] else [], []⟩
  else if cfgExists = false then
    ⟨none, if verbose > 0 then [.errConfigFileMissing] else [], []⟩
  else if schParseOk = false then
    ⟨none, (if verbose > 0 then [.errSchemaParse] else [])
        ++ (if verbose > 1 then [.tracebackNote, .tracebackText] else []), []⟩
  else
    match cfgTree with
    | none =>
      ⟨none, (if verbose > 0 then [.errConfigParse] else [])
          ++ (if verbose > 1 then [.tracebackNote, .tracebackText] else []), []⟩
    | some t =>
      if schemaValid = false then
        ⟨none, if verbose > 1 then [.parsedNotValid, .schemaErrorDetail] else [],
         [.schemaCheck]⟩
      else
        let p1 : List Msg := if verbose > 0 then [.parsedAndValidated] else []
        if checkRefs (refTags t "LegislativeBody") (idTags t "LegislativeBody") = false then
          ⟨none, p1 ++ (if verbose > 1 then [.errMismatchedLB] else []),
           [.schemaCheck, .lbRefCheck]⟩
        else if checkRefs (refTags t "Subject") (idTags t "Subject") = false then
          ⟨none, p1 ++ (if verbose > 1 then [.errMismatchedSubject] else []),
           [.schemaCheck, .lbRefCheck, .subjectRefCheck]⟩
        else
          ⟨some t, p1 ++ (if verbose > 0 then [.documentValidated] else []),
           [.schemaCheck, .lbRefCheck, .subjectRefCheck]⟩

/-!
create_report_templates (setup.py lines 375-400) and
merge_config (setup.py lines 244-373).
-/

/-- The xpath selecting the legislative bodies for report templates
(line 389): DistrictBuilder, then its LegislativeBodies children, then
their LegislativeBody children. -/
def lbBodies (t : XMLElem) : List XMLElem :=
  childStep (childStep (xpathTag t "DistrictBuilder") "LegislativeBodies") "LegislativeBody"

/-- The per-body loop of create_report_templates: for each body, the
name attribute is lowercased into the template path (name missing means
AttributeError from lower() on None) and the id attribute is bound as
the XSLT parameter; writeOk models writability of the target directory.
The transform result text is external to the script, so a produced
template is recorded as its path paired with the bound body id. -/
def bodiesLoop (bodies : List XMLElem) (writeOk : Bool) (template_dir : String)
    (acc : List (String × String)) : Except PyExc (List (String × String)) :=
  match bodies with
  | [] => .ok acc
  | b :: rest =>
    match getA b "name" with
    | none => .error .attributeError
    | some nm =>
      let path := template_dir ++ "/bard_" ++ nm.toLower ++ ".html"
      if writeOk = false then .error .ioError
      else bodiesLoop rest writeOk template_dir (acc ++ [(path, pyStr (getA b "id"))])

/-- create_report_templates: xsltOk models the load of the XSLT file
(open, parse and XSLT construction, lines 382-384); then one template
per legislative body. -/
def create_report_templates (t : XMLElem) (xsltOk writeOk : Bool)
    (template_dir : String) : Except PyExc (List (String × String)) :=
  if xsltOk = false then .error .ioError
  else bodiesLoop (lbBodies t) writeOk template_dir []

/-- What one run of merge_config does inside its try block: the strings
written to settings.py in order, the report templates produced, and the
exception that ended the block, if any. -/
structure MergeRun where
  writes : List String
  calls : List (String × String)
  exc : Option PyExc

/-- The observable outcome of merge_config: True, False, or an
exception escaping uncaught. -/
inductive MergeOutcome : Type where
  | success
  | failure
  | uncaught (e : PyExc)
deriving DecidableEq

/-- The except clause of merge_config is except Exception (line 361);
every modelled exception is an Exception subclass, so each is caught. -/
def exceptionCaught (_ : PyExc) : Bool := true

/-- The Database writes, lines 260-265. -/
def dbWrites (db : XMLElem) : List String :=
  ["\n#\n# Automatically generated settings.\n#\n",
   "DATABASE_ENGINE = \x27postgresql_psycopg2\x27\n",
   "DATABASE_NAME = \x27" ++ pyStr (getA db "name") ++ "\x27\n",
   "DATABASE_USER = \x27" ++ pyStr (getA db "user") ++ "\x27\n",
   "DATABASE_PASSWORD = \x27" ++ pyStr (getA db "password") ++ "\x27\n",
   "DATABASE_HOST = \x27" ++ getAD db "host" "" ++ "\x27\n"]

/-- The MapServer writes before the FEATURE_LIMIT line, lines 268-274;
the protocol line is written only when the attribute is truthy. -/
def msWrites (ms : XMLElem) : List String :=
  ["\nMAP_SERVER = \x27" ++ pyStr (getA ms "hostname") ++ "\x27\n"]
  ++ (if pyFalsy (getA ms "protocol") then []
      else ["MAP_SERVER_PROTOCOL = \x27" ++ pyStr (getA ms "protocol") ++ "\x27\n"])
  ++ ["BASE_MAPS = \x27" ++ pyStr (getA ms "basemaps") ++ "\x27\n",
      "MAP_SERVER_NS = \x27" ++ pyStr (getA ms "ns") ++ "\x27\n",
      "MAP_SERVER_NSHREF = \x27" ++ pyStr (getA ms "nshref") ++ "\x27\n"]

/-- The FEATURE_LIMIT write, line 275. -/
def featureLine (maxfeat : Int) : String :=
  "FEATURE_LIMIT = " ++ toString maxfeat ++ "\n"

/-- The Admin writes, lines 278-279. -/
def adminWrites (ad : XMLElem) : List String :=
  ["\nADMINS = (\n  (\x27" ++ pyStr (getA ad "user") ++ "\x27,\n  \x27"
     ++ pyStr (getA ad "email") ++ "\x27),\n)",
   "\nMANAGERS = ADMINS\n"]

/-- The first Mailer write, line 282, before the port conversion. -/
def mailerHostWrite (ml : XMLElem) : String :=
  "\nEMAIL_HOST = \x27" ++ pyStr (getA ml "server") ++ "\x27\n"

/-- The remaining Mailer writes, lines 283-286. -/
def mailerRestWrites (ml : XMLElem) (port : Int) : List String :=
  ["EMAIL_PORT = " ++ toString port ++ "\n",
   "EMAIL_HOST_USER = \x27" ++ pyStr (getA ml "username") ++ "\x27\n",
   "EMAIL_HOST_PASSWORD = \x27" ++ pyStr (getA ml "password") ++ "\x27\n",
   "EMAIL_SUBJECT_PREFIX = \x27" ++ pyStr (getA ml "prefix") ++ " \x27\n"]

/-- The SECRET_KEY character set of line 288, as a list: 26 letters, 10
digits and 14 punctuation marks, 50 characters in all. -/
def charsetList : List Char :=
  "abcdefghijklmnopqrstuvwxyz0123456789!@#$%^&*(-_=+)".toList

/-- The 50 random.choice draws of line 288, with the PRNG modelled as a
stream of naturals indexing into the character set. -/
def secretChars (r : Nat → Nat) : List Char :=
  (List.range 50).map (fun i => charsetList.getD (r i % 50) 'a')

/-- The SECRET_KEY write, line 288. -/
def secretWrite (r : Nat → Nat) : String :=
  "\nSECRET_KEY = \x27" ++ String.mk (secretChars r) ++ "\x27\n"

/-- The Project path writes, lines 292-296. -/
def projWrites (root_dir : String) : List String :=
  ["\nMEDIA_ROOT = \x27" ++ root_dir ++ "/django/publicmapping/site-media/\x27\n",
   "\nSTATIC_ROOT = \x27" ++ root_dir ++ "/django/publicmapping/static-media/\x27\n",
   "\nTEMPLATE_DIRS = (\n  \x27" ++ root_dir ++ "/django/publicmapping/templates\x27,\n)\n",
   "\nSLD_ROOT = \x27" ++ root_dir ++ "/sld/\x27\n"]

/-- Lines 298-300 and 303-305: a falsy attribute value is replaced by
the integer default before int() is applied. -/
def quotaVal (o : Option String) (dflt : Int) : Except PyExc Int :=
  if pyFalsy o then .ok dflt else pyIntO o

/-- The CONCURRENT_SESSIONS write, line 301. -/
def quotaLine (q : Int) : String :=
  "\nCONCURRENT_SESSIONS = " ++ toString q ++ "\n"

/-- The SESSION_TIMEOUT write, line 306. -/
def timeoutLine (q : Int) : String :=
  "\nSESSION_TIMEOUT = " ++ toString q ++ "\n"

/-- Element.find with the path BardConfigs/BardConfig relative to the
Reporting element (line 315): the first BardConfig child of a
BardConfigs child, in document order. -/
def findBard (rep : XMLElem) : Option XMLElem :=
  (childStep (childStep [rep] "BardConfigs") "BardConfig").head?

/-- Lines 326-332: the GoogleAnalytics writes, with the None pair when
the element is absent. -/
def gaWrites (t : XMLElem) : List String :=
  match (xpathTag t "GoogleAnalytics").head? with
  | some ga =>
    ["\nGA_ACCOUNT = \x27" ++ pyStr (getA ga "account") ++ "\x27\n",
     "GA_DOMAIN = \x27" ++ pyStr (getA ga "domain") ++ "\x27\n"]
  | none => ["\nGA_ACCOUNT = None\nGA_DOMAIN = None\n"]

/-- Lines 334-339: the Upload write; maxsize is spliced in as text, and
the default applies when the element is absent. -/
def uploadWrites (t : XMLElem) : List String :=
  match (xpathTag t "Upload").head? with
  | some up => ["\nMAX_UPLOAD_SIZE = " ++ pyStr (getA up "maxsize") ++ " * 1024\n"]
  | none => ["\nMAX_UPLOAD_SIZE = 5000 * 1024\n"]

/-- Lines 342-348: an undo bound is 0 when the MaxUndos element is
absent or the attribute is falsy, otherwise int() of the attribute. -/
def undoVal (t : XMLElem) (attr : String) : Except PyExc Int :=
  match (xpathTag t "MaxUndos").head? with
  | none => .ok 0
  | some c => quotaVal (getA c attr) 0

/-- Lines 353-357: the leaderboard bound is 10 when the Leaderboard
element is absent or the attribute is falsy. -/
def rankVal (t : XMLElem) : Except PyExc Int :=
  match (xpathTag t "Leaderboard").head? with
  | none => .ok 10
  | some c => quotaVal (getA c "maxranked") 10

/-- Lines 326-360 of the try block: the writes after the Reporting
section.  Unreachable in any run, because the NameError of line 311 is
raised first; modelled for completeness. -/
def afterReports (t : XMLElem) (w : List String) (calls : List (String × String)) :
    MergeRun :=
  let wUp := w ++ gaWrites t ++ uploadWrites t
  match undoVal t "duringedit" with
  | .error e => ⟨wUp, calls, some e⟩
  | .ok de =>
    let wDe := wUp ++ ["\nMAX_UNDOS_DURING_EDIT = " ++ toString de ++ "\n"]
    match undoVal t "afteredit" with
    | .error e => ⟨wDe, calls, some e⟩
    | .ok ae =>
      let wAe := wDe ++ ["\nMAX_UNDOS_AFTER_EDIT = " ++ toString ae ++ "\n"]
      match rankVal t with
      | .error e => ⟨wAe, calls, some e⟩
      | .ok mr =>
        ⟨wAe ++ ["\nLEADERBOARD_MAX_RANKED = " ++ toString mr ++ "\n"], calls, none⟩

/-- Lines 312-360 of the try block: the code textually after the banner
conditional.  Unreachable in any run, because evaluating the condition
of line 311 raises NameError; modelled for completeness. -/
def postBanner (t : XMLElem) (w10 : List String) (root_dir : String)
    (banner : Option String) (bannerTruthy : Bool) (xsltOk writeOk : Bool) :
    MergeRun :=
  let w11 := if bannerTruthy
    then w10 ++ ["\nBANNER_IMAGE = \x27" ++ pyStr banner ++ "\x27\n"]
    else w10
  match pyIndex0 (xpathTag t "Reporting") with
  | .error e => ⟨w11, [], some e⟩
  | .ok rep =>
    match findBard rep with
    | some bard =>
      let w12 := w11 ++
        ["\nREPORTS_ENABLED = True\n",
         "\nBARD_BASESHAPE = \x27" ++ pyStr (getA bard "shape") ++ "\x27\n",
         "BARD_TEMP = \x27" ++ pyStr (getA bard "temp") ++ "\x27\n"]
      match create_report_templates t xsltOk writeOk
          (root_dir ++ "/django/publicmapping/redistricting/templates") with
      | .error e => ⟨w12, [], some e⟩
      | .ok calls => afterReports t w12 calls
    | none => afterReports t (w11 ++ ["\nREPORTS_ENABLED = False\n"]) []

/-- The try block of merge_config, lines 250-360: the template file
settings.py.in is copied line by line, then the generated settings are
appended, each fallible step ending the block with its exception.  At
lines 310-311 the attribute value is bound to the name banner, but the
conditional tests the unbound name bannerimage, so evaluating it raises
NameError there on every run. -/
def mergeBody (t : XMLElem) (tmpl : List String) (r : Nat → Nat)
    (xsltOk writeOk : Bool) : MergeRun :=
  match pyIndex0 (xpathTag2 t "Project" "Database") with
  | .error e => ⟨tmpl, [], some e⟩
  | .ok db =>
  let w1 := tmpl ++ dbWrites db
  match pyIndex0 (xpathTag t "MapServer") with
  | .error e => ⟨w1, [], some e⟩
  | .ok ms =>
  let w2 := w1 ++ msWrites ms
  match pyIntO (getA ms "maxfeatures") with
  | .error e => ⟨w2, [], some e⟩
  | .ok maxfeat =>
  let w3 := w2 ++ [featureLine maxfeat]
  match pyIndex0 (xpathTag t "Admin") with
  | .error e => ⟨w3, [], some e⟩
  | .ok ad =>
  let w4 := w3 ++ adminWrites ad
  match pyIndex0 (xpathTag t "Mailer") with
  | .error e => ⟨w4, [], some e⟩
  | .ok ml =>
  let w5 := w4 ++ [mailerHostWrite ml]
  match pyIntO (getA ml "port") with
  | .error e => ⟨w5, [], some e⟩
  | .ok port =>
  let w6 := w5 ++ mailerRestWrites ml port
  let w7 := w6 ++ [secretWrite r]
  match pyIndex0 (xpathTag t "Project") with
  | .error e => ⟨w7, [], some e⟩
  | .ok proj =>
  let root_dir := pyStr (getA proj "root")
  let w8 := w7 ++ projWrites root_dir
  match quotaVal (getA proj "sessionquota") 5 with
  | .error e => ⟨w8, [], some e⟩
  | .ok quota =>
  let w9 := w8 ++ [quotaLine quota]
  match quotaVal (getA proj "sessiontimeout") 15 with
  | .error e => ⟨w9, [], some e⟩
  | .ok timeout =>
  let w10 := w9 ++ [timeoutLine timeout]
  let banner := getA proj "bannerimage"
  match (Except.error (PyExc.nameError "bannerimage") : Except PyExc Bool) with
  | .error e => ⟨w10, [], some e⟩
  | .ok bannerTruthy => postBanner t w10 root_dir banner bannerTruthy xsltOk writeOk

/-- merge_config: the try block followed by the except Exception clause
of line 361, which turns any caught exception into the return value
False. -/
def merge_config (t : XMLElem) (tmpl : List String) (r : Nat → Nat)
    (xsltOk writeOk : Bool) : MergeOutcome :=
  match (mergeBody t tmpl r xsltOk writeOk).exc with
  | none => .success
  | some e => if exceptionCaught e then .failure else .uncaught e

/-!
Concrete configuration documents used as witnesses and failing inputs.
-/

/-- A Database element with the attributes the schema requires. -/
def dbElemW : XMLElem := .node "Database" [("name", "db"), ("user", "u"), ("password", "pw")] []

/-- A Project element holding the Database, with no sessionquota and no
sessiontimeout attribute. -/
def projElemW : XMLElem := .node "Project" [("root", "/projects/PublicMapping")] [dbElemW]

/-- A MapServer element with a numeric maxfeatures attribute. -/
def msElemW : XMLElem :=
  .node "MapServer"
    [("hostname", "maps.example.com"), ("basemaps", "base"), ("ns", "pmp"),
     ("nshref", "http://example.com/pmp"), ("maxfeatures", "100")] []

/-- An Admin element. -/
def adElemW : XMLElem := .node "Admin" [("user", "admin"), ("email", "admin@example.com")] []

/-- A Mailer element with a numeric port attribute. -/
def mlElemW : XMLElem :=
  .node "Mailer"
    [("server", "smtp.example.com"), ("port", "25"), ("username", "mail"),
     ("password", "mpw"), ("prefix", "PMP")] []

/-- A LegislativeBody definition carrying an id and a name. -/
def lbElemW : XMLElem := .node "LegislativeBody" [("id", "assembly"), ("name", "Assembly")] []

/-- A Reporting element with no BardConfig below it. -/
def repNoBardW : XMLElem := .node "Reporting" [] []

/-- A Reporting element holding one BardConfig. -/
def repBardW : XMLElem :=
  .node "Reporting" []
    [.node "BardConfigs" []
      [.node "BardConfig"
        [("shape", "/data/base.shp"), ("temp", "/data/bard-temp"),
         ("transform", "/data/template.xslt")] []]]

/-- A config document with no BardConfig, no Upload, no MaxUndos and no
Leaderboard element, and no session attributes on Project. -/
def cfgNoBardW : XMLElem :=
  .node "DistrictBuilder" []
    [projElemW, msElemW, adElemW, mlElemW, repNoBardW,
     .node "LegislativeBodies" [] [lbElemW]]

/-- A config document holding a BardConfig and one legislative body. -/
def cfgBardW : XMLElem :=
  .node "DistrictBuilder" []
    [projElemW, msElemW, adElemW, mlElemW, repBardW,
     .node "LegislativeBodies" [] [lbElemW]]

/-- A fixed PRNG stream for witnesses. -/
def rzero : Nat → Nat := fun _ => 0

/-- A config tree whose only LegislativeBody reference dangles: the ref
value other matches no id in the document. -/
def cfgDanglingW : XMLElem :=
  .node "DistrictBuilder" []
    [.node "LegislativeBodies" [] [lbElemW],
     .node "Template" [] [.node "LegislativeBody" [("ref", "other")] []]]

/-- A config tree whose references all resolve: one Subject defined with
an id, one Subject referring to it, and a LegislativeBody reference
satisfied by a definition elsewhere in the document. -/
def cfgResolvedW : XMLElem :=
  .node "DistrictBuilder" []
    [.node "LegislativeBodies" [] [lbElemW],
     .node "Subjects" [] [.node "Subject" [("id", "poptot"), ("name", "Total Population")] []],
     .node "Template" []
       [.node "LegislativeBody" [("ref", "assembly")] [],
        .node "Subject" [("ref", "poptot")] []]]

/-- A LegislativeBody element that carries both a ref and an id bound to
the same value. -/
def lbSelfW : XMLElem := .node "LegislativeBody" [("ref", "house"), ("id", "house")] []

/-- A config tree whose only LegislativeBody reference is satisfied by
the id on the referring element itself. -/
def cfgSelfW : XMLElem :=
  .node "DistrictBuilder" [] [.node "LegislativeBodies" [] [lbSelfW]]

/-!
Helper lemmas.
-/

/-- Folding an or over a list starts from the seed and behaves as any. -/
theorem foldl_or_eq_any {α : Type} (p : α → Bool) (l : List α) (b : Bool) :
    l.foldl (fun acc x => acc || p x) b = (b || l.any p) := by
  induction l generalizing b with
  | nil => simp
  | cons x xs ih => simp [List.foldl_cons, ih, Bool.or_assoc]

/-- The inner ref/id loop computes an existence test over the id tags. -/
theorem findMatch_eq_any (ids : List XMLElem) (r : XMLElem) :
    findMatch ids r = ids.any (fun i => getA r "ref" == getA i "id") := by
  simp [findMatch, foldl_or_eq_any]

/-- The outer ref/id loop computes a universal test over the ref tags. -/
theorem checkRefs_eq_all (refs ids : List XMLElem) :
    checkRefs refs ids = refs.all (fun r => findMatch ids r) := by
  induction refs with
  | nil => rfl
  | cons r rest ih =>
    cases h : findMatch ids r <;> simp [checkRefs, h, ih]

/-- The ref/id check succeeds exactly when every ref value occurs as an
id value. -/
theorem checkRefs_true_iff (refs ids : List XMLElem) :
    checkRefs refs ids = true ↔
      ∀ r ∈ refs, ∃ i ∈ ids, getA r "ref" = getA i "id" := by
  simp [checkRefs_eq_all, List.all_eq_true, findMatch_eq_any, List.any_eq_true]

/-- Membership in the ref tag list unpacks to the filter conditions. -/
theorem mem_refTags_iff (t : XMLElem) (tg : String) (r : XMLElem) :
    r ∈ refTags t tg ↔
      r ∈ descendants t ∧ r.tagName = tg ∧ (getA r "ref").isSome = true := by
  simp [refTags, List.mem_filter]

/-- Membership in the id tag list unpacks to the filter conditions. -/
theorem mem_idTags_iff (t : XMLElem) (tg : String) (i : XMLElem) :
    i ∈ idTags t tg ↔
      i ∈ descendants t ∧ i.tagName = tg ∧ (getA i "id").isSome = true := by
  simp [idTags, List.mem_filter]

/-- A ref is found as soon as any element of the document, of the right
tag, carries a matching id; the referring element itself qualifies. -/
theorem findMatch_of_id_anywhere (t : XMLElem) (tg : String) (r i : XMLElem)
    (hr : r ∈ refTags t tg) (hi : i ∈ descendants t) (hit : i.tagName = tg)
    (hid : getA i "id" = getA r "ref") :
    findMatch (idTags t tg) r = true := by
  have hrs : (getA r "ref").isSome = true := ((mem_refTags_iff t tg r).mp hr).2.2
  have his : (getA i "id").isSome = true := by rw [hid]; exact hrs
  have hmem : i ∈ idTags t tg := (mem_idTags_iff t tg i).mpr ⟨hi, hit, his⟩
  rw [findMatch_eq_any, List.any_eq_true]
  exact ⟨i, hmem, by simp [hid]⟩

/-- An element of a list is retrieved by getD or the default is. -/
theorem getD_mem {α : Type} (l : List α) (n : Nat) (d : α) (hd : d ∈ l) :
    l.getD n d ∈ l := by
  unfold List.getD
  cases h : l.get? n with
  | none => simpa using hd
  | some x =>
    have := List.get?_mem h
    simpa using this

/-- The try block of merge_config, characterised on any config whose
lookups up to line 306 succeed: the writes stop at the SESSION_TIMEOUT
line, no report template is produced, and the block ends with the
NameError for the unbound name bannerimage. -/
theorem mergeBody_char (t : XMLElem) (tmpl : List String) (r : Nat → Nat)
    (xo wo : Bool) (db ms ad ml proj : XMLElem) (maxfeat port quota timeout : Int)
    (h1 : pyIndex0 (xpathTag2 t "Project" "Database") = .ok db)
    (h2 : pyIndex0 (xpathTag t "MapServer") = .ok ms)
    (h3 : pyIntO (getA ms "maxfeatures") = .ok maxfeat)
    (h4 : pyIndex0 (xpathTag t "Admin") = .ok ad)
    (h5 : pyIndex0 (xpathTag t "Mailer") = .ok ml)
    (h6 : pyIntO (getA ml "port") = .ok port)
    (h7 : pyIndex0 (xpathTag t "Project") = .ok proj)
    (h8 : quotaVal (getA proj "sessionquota") 5 = .ok quota)
    (h9 : quotaVal (getA proj "sessiontimeout") 15 = .ok timeout) :
    mergeBody t tmpl r xo wo =
      ⟨tmpl ++ dbWrites db ++ msWrites ms ++ [featureLine maxfeat] ++ adminWrites ad
         ++ [mailerHostWrite ml] ++ mailerRestWrites ml port ++ [secretWrite r]
         ++ projWrites (pyStr (getA proj "root")) ++ [quotaLine quota]
         ++ [timeoutLine timeout],
       [], some (.nameError "bannerimage")⟩ := by
  simp only [mergeBody, h1, h2, h3, h4, h5, h6, h7, h8, h9]

/-- No run of the try block of merge_config produces a report template:
every branch returns an empty calls list, the create_report_templates
call site being unreachable behind the NameError of line 311. -/
theorem mergeBody_calls (t : XMLElem) (tmpl : List String) (r : Nat → Nat)
    (xo wo : Bool) : (mergeBody t tmpl r xo wo).calls = [] := by
  unfold mergeBody
  repeat' (split <;> try rfl)

/-!
The claims.
-/

/-- Claim C1: on every validated config document, merge_config takes its
error branch and returns False: the banner-image conditional of line 311
tests the unbound name bannerimage, so a NameError is raised on every
run before any Reporting, GoogleAnalytics, Upload, MaxUndos or
Leaderboard setting is written, and the catch-all except absorbs it.
The write list stops exactly at the SESSION_TIMEOUT line. -/
theorem spec_c1 (t : XMLElem) (tmpl : List String) (r : Nat → Nat)
    (xo wo : Bool) (db ms ad ml proj : XMLElem) (maxfeat port quota timeout : Int)
    (h1 : pyIndex0 (xpathTag2 t "Project" "Database") = .ok db)
    (h2 : pyIndex0 (xpathTag t "MapServer") = .ok ms)
    (h3 : pyIntO (getA ms "maxfeatures") = .ok maxfeat)
    (h4 : pyIndex0 (xpathTag t "Admin") = .ok ad)
    (h5 : pyIndex0 (xpathTag t "Mailer") = .ok ml)
    (h6 : pyIntO (getA ml "port") = .ok port)
    (h7 : pyIndex0 (xpathTag t "Project") = .ok proj)
    (h8 : quotaVal (getA proj "sessionquota") 5 = .ok quota)
    (h9 : quotaVal (getA proj "sessiontimeout") 15 = .ok timeout) :
    merge_config t tmpl r xo wo = .failure ∧
    (mergeBody t tmpl r xo wo).exc = some (.nameError "bannerimage") ∧
    (mergeBody t tmpl r xo wo).writes =
      tmpl ++ dbWrites db ++ msWrites ms ++ [featureLine maxfeat] ++ adminWrites ad
        ++ [mailerHostWrite ml] ++ mailerRestWrites ml port ++ [secretWrite r]
        ++ projWrites (pyStr (getA proj "root")) ++ [quotaLine quota]
        ++ [timeoutLine timeout] ∧
    (mergeBody t tmpl r xo wo).calls = [] := by
  have h := mergeBody_char t tmpl r xo wo db ms ad ml proj maxfeat port quota timeout
    h1 h2 h3 h4 h5 h6 h7 h8 h9
  refine ⟨?_, ?_, ?_, ?_⟩ <;> simp [merge_config, h, exceptionCaught]

/-- Witness for C1: on a concrete validated config, merge_config
returns the failure value. -/
theorem spec_c1_witness : merge_config cfgNoBardW [] rzero false false = .failure :=
  (spec_c1 cfgNoBardW [] rzero false false dbElemW msElemW adElemW mlElemW projElemW
    100 25 5 15 rfl rfl rfl rfl rfl rfl rfl rfl rfl).1

/-- Claim C2, evaluated on the code at the failing input: on a config
with no BardConfig, the settings output never receives the line
REPORTS_ENABLED = False, because the NameError of line 311 ends the try
block first; merge_config returns False. -/
theorem spec_c2_eval :
    merge_config cfgNoBardW [] rzero false false = .failure ∧
    "\nREPORTS_ENABLED = False\n" ∉ (mergeBody cfgNoBardW [] rzero false false).writes ∧
    (mergeBody cfgNoBardW [] rzero false false).calls = [] :=
  ⟨rfl, by decide, rfl⟩

/-- Claim C3, evaluated on the code at the failing input: on a config
with a BardConfig and one legislative body, even with a healthy XSLT
file and a writable target directory, no REPORTS_ENABLED = True line is
written and no template is produced; merge_config returns False. -/
theorem spec_c3_eval :
    merge_config cfgBardW [] rzero true true = .failure ∧
    "\nREPORTS_ENABLED = True\n" ∉ (mergeBody cfgBardW [] rzero true true).writes ∧
    (mergeBody cfgBardW [] rzero true true).calls = [] :=
  ⟨rfl, by decide, rfl⟩

/-- Claim C6, evaluated on the code at the failing input: on a config
with none of the optional attributes, the session defaults 5 and 15 are
written (they precede line 311), but the Upload, MaxUndos and
Leaderboard defaults never are: the NameError ends the try block before
them. -/
theorem spec_c6_eval :
    "\nCONCURRENT_SESSIONS = 5\n" ∈ (mergeBody cfgNoBardW [] rzero false false).writes ∧
    "\nSESSION_TIMEOUT = 15\n" ∈ (mergeBody cfgNoBardW [] rzero false false).writes ∧
    "\nMAX_UPLOAD_SIZE = 5000 * 1024\n" ∉ (mergeBody cfgNoBardW [] rzero false false).writes ∧
    "\nMAX_UNDOS_DURING_EDIT = 0\n" ∉ (mergeBody cfgNoBardW [] rzero false false).writes ∧
    "\nMAX_UNDOS_AFTER_EDIT = 0\n" ∉ (mergeBody cfgNoBardW [] rzero false false).writes ∧
    "\nLEADERBOARD_MAX_RANKED = 10\n" ∉ (mergeBody cfgNoBardW [] rzero false false).writes ∧
    merge_config cfgNoBardW [] rzero false false = .failure :=
  ⟨by decide, by decide, by decide, by decide, by decide, by decide, rfl⟩

/-- Claim C7 as stated is false at a concrete input: with a config
holding a BardConfig and an XSLT file that fails to load, the exception
does not propagate out of merge_config; the run ends in the generic
failure result. -/
theorem spec_c7_cex : merge_config cfgBardW [] rzero false false = .failure := rfl

/-- Claim C7 amended: no exception raised during settings generation,
including any from report template generation, propagates out of
merge_config; the except Exception clause absorbs every exception into
the generic failure return, and the template generator is in fact never
invoked because the NameError of line 311 precedes its call site. -/
theorem spec_c7_amended (t : XMLElem) (tmpl : List String) (r : Nat → Nat)
    (xo wo : Bool) (e : PyExc) :
    merge_config t tmpl r xo wo ≠ MergeOutcome.uncaught e ∧
    (mergeBody t tmpl r xo wo).calls = [] := by
  constructor
  · unfold merge_config
    cases h : (mergeBody t tmpl r xo wo).exc with
    | none => simp
    | some e2 => simp [exceptionCaught]
  · exact mergeBody_calls t tmpl r xo wo

/-- Claim C9: for the same config document and the same settings
template, the write list of two runs is identical except for the
SECRET_KEY element, which is the image of the random stream; the secret
is 50 characters long, each drawn from the fixed 50-character set. -/
theorem spec_c9 (t : XMLElem) (tmpl : List String) (r1 r2 : Nat → Nat)
    (xo wo : Bool) (db ms ad ml proj : XMLElem) (maxfeat port quota timeout : Int)
    (h1 : pyIndex0 (xpathTag2 t "Project" "Database") = .ok db)
    (h2 : pyIndex0 (xpathTag t "MapServer") = .ok ms)
    (h3 : pyIntO (getA ms "maxfeatures") = .ok maxfeat)
    (h4 : pyIndex0 (xpathTag t "Admin") = .ok ad)
    (h5 : pyIndex0 (xpathTag t "Mailer") = .ok ml)
    (h6 : pyIntO (getA ml "port") = .ok port)
    (h7 : pyIndex0 (xpathTag t "Project") = .ok proj)
    (h8 : quotaVal (getA proj "sessionquota") 5 = .ok quota)
    (h9 : quotaVal (getA proj "sessiontimeout") 15 = .ok timeout) :
    (mergeBody t tmpl r1 xo wo).writes =
      (tmpl ++ dbWrites db ++ msWrites ms ++ [featureLine maxfeat] ++ adminWrites ad
        ++ [mailerHostWrite ml] ++ mailerRestWrites ml port)
      ++ [secretWrite r1]
      ++ (projWrites (pyStr (getA proj "root")) ++ [quotaLine quota] ++ [timeoutLine timeout]) ∧
    (mergeBody t tmpl r2 xo wo).writes =
      (tmpl ++ dbWrites db ++ msWrites ms ++ [featureLine maxfeat] ++ adminWrites ad
        ++ [mailerHostWrite ml] ++ mailerRestWrites ml port)
      ++ [secretWrite r2]
      ++ (projWrites (pyStr (getA proj "root")) ++ [quotaLine quota] ++ [timeoutLine timeout]) ∧
    (secretChars r1).length = 50 ∧
    (∀ c ∈ secretChars r1, c ∈ charsetList) := by
  have ha := mergeBody_char t tmpl r1 xo wo db ms ad ml proj maxfeat port quota timeout
    h1 h2 h3 h4 h5 h6 h7 h8 h9
  have hb := mergeBody_char t tmpl r2 xo wo db ms ad ml proj maxfeat port quota timeout
    h1 h2 h3 h4 h5 h6 h7 h8 h9
  refine ⟨?_, ?_, ?_, ?_⟩
  · rw [ha]; simp [List.append_assoc]
  · rw [hb]; simp [List.append_assoc]
  · simp [secretChars]
  · intro c hc
    simp only [secretChars, List.mem_map] at hc
    obtain ⟨i, _, hi⟩ := hc
    rw [← hi]
    exact getD_mem charsetList (r1 i % 50) 'a' (by decide)

/-- Witness for C9: the concrete secret has length 50. -/
theorem spec_c9_witness : (secretChars rzero).length = 50 :=
  (spec_c9 cfgNoBardW [] rzero rzero false false dbElemW msElemW adElemW mlElemW
    projElemW 100 25 5 15 rfl rfl rfl rfl rfl rfl rfl rfl rfl).2.2.1

/-- Claim C4: on a schema-valid document, validate_config returns the
parsed tree exactly when every LegislativeBody bearing a ref has some
LegislativeBody whose id equals that ref, and likewise for Subject; any
dangling ref of either tag family makes it return a failure. -/
theorem spec_c4 (t : XMLElem) (v : Nat) :
    (validate_config true true true (some t) true v).result = some t ↔
      ((∀ r ∈ refTags t "LegislativeBody", ∃ i ∈ idTags t "LegislativeBody",
          getA r "ref" = getA i "id") ∧
       (∀ r ∈ refTags t "Subject", ∃ i ∈ idTags t "Subject",
          getA r "ref" = getA i "id")) := by
  rw [← checkRefs_true_iff, ← checkRefs_true_iff]
  cases h1 : checkRefs (refTags t "LegislativeBody") (idTags t "LegislativeBody") <;>
  cases h2 : checkRefs (refTags t "Subject") (idTags t "Subject") <;>
  simp [validate_config, h1, h2]

/-- Witness for C4: a concrete document whose references all resolve is
returned by validate_config. -/
theorem spec_c4_witness :
    (validate_config true true true (some cfgResolvedW) true 1).result = some cfgResolvedW :=
  (spec_c4 cfgResolvedW 1).mpr (by decide)

/-- Claim C5: a schema-invalid document makes validate_config return a
failure with only the schema check performed; no ref/id check ever runs
on a schema-invalid document, whatever else happened before. -/
theorem spec_c5 :
    (∀ (t : XMLElem) (v : Nat),
       (validate_config true true true (some t) false v).result = none ∧
       (validate_config true true true (some t) false v).checks = [Check.schemaCheck]) ∧
    (∀ (se ce sp : Bool) (tr : Option XMLElem) (v : Nat),
       Check.lbRefCheck ∉ (validate_config se ce sp tr false v).checks ∧
       Check.subjectRefCheck ∉ (validate_config se ce sp tr false v).checks) := by
  constructor
  · intro t v
    constructor <;> simp [validate_config]
  · intro se ce sp tr v
    cases se <;> cases ce <;> cases sp <;> cases tr <;>
      simp [validate_config]

/-- Claim C8 as stated is false at concrete inputs: at verbosity 1 a
schema-invalid document is rejected with no message at all, and a
dangling LegislativeBody reference is rejected with no error message
(only the earlier success note is printed); the short error the claim
requires for every failure is absent. -/
theorem spec_c8_cex :
    ((validate_config true true true (some cfgNoBardW) false 1).result = none ∧
     (validate_config true true true (some cfgNoBardW) false 1).prints = []) ∧
    ((validate_config true true true (some cfgDanglingW) true 1).result = none ∧
     (validate_config true true true (some cfgDanglingW) true 1).prints
        = [Msg.parsedAndValidated]) :=
  ⟨⟨rfl, rfl⟩, ⟨rfl, rfl⟩⟩

/-- Claim C8 amended: verbosity 0 suppresses every message; at
verbosity 1 the missing-file and parse failures print a short error,
but schema violations and referential-integrity failures print nothing;
their detail appears only at verbosity 2, as do the traceback notes of
the parse failures. -/
theorem spec_c8_amended :
    (∀ (se ce sp : Bool) (tr : Option XMLElem) (sv : Bool),
       (validate_config se ce sp tr sv 0).prints = []) ∧
    (validate_config false true true none true 1).prints = [Msg.errSchemaFileMissing] ∧
    (validate_config true false true none true 1).prints = [Msg.errConfigFileMissing] ∧
    (validate_config true true false none true 1).prints = [Msg.errSchemaParse] ∧
    (validate_config true true false none true 2).prints
        = [Msg.errSchemaParse, Msg.tracebackNote, Msg.tracebackText] ∧
    (validate_config true true true none true 1).prints = [Msg.errConfigParse] ∧
    (validate_config true true true none true 2).prints
        = [Msg.errConfigParse, Msg.tracebackNote, Msg.tracebackText] ∧
    (∀ t : XMLElem, (validate_config true true true (some t) false 1).prints = []) ∧
    (∀ t : XMLElem, (validate_config true true true (some t) false 2).prints
        = [Msg.parsedNotValid, Msg.schemaErrorDetail]) ∧
    (validate_config true true true (some cfgDanglingW) true 1).prints
        = [Msg.parsedAndValidated] ∧
    (validate_config true true true (some cfgDanglingW) true 2).prints
        = [Msg.parsedAndValidated, Msg.errMismatchedLB] := by
  refine ⟨?_, rfl, rfl, rfl, rfl, rfl, rfl, ?_, ?_, rfl, rfl⟩
  · intro se ce sp tr sv
    cases se <;> cases ce <;> cases sp <;> cases tr <;> cases sv <;>
      simp [validate_config] <;> first
        | rfl
        | ((repeat' split) <;> rfl)
  · intro t; simp [validate_config]
  · intro t; simp [validate_config]

/-- Claim C10: the ref/id check is existence-only over the whole
document: an element carrying both ref and id with the same value
satisfies its own reference, and a matching id anywhere in the document
on an element of the right tag satisfies a reference, for the
LegislativeBody and the Subject families alike. -/
theorem spec_c10 :
    (∀ (t r : XMLElem), r ∈ refTags t "LegislativeBody" →
       (getA r "id" = getA r "ref" →
          findMatch (idTags t "LegislativeBody") r = true) ∧
       (∀ i ∈ descendants t, i.tagName = "LegislativeBody" →
          getA i "id" = getA r "ref" →
          findMatch (idTags t "LegislativeBody") r = true)) ∧
    (∀ (t r : XMLElem), r ∈ refTags t "Subject" →
       (getA r "id" = getA r "ref" →
          findMatch (idTags t "Subject") r = true) ∧
       (∀ i ∈ descendants t, i.tagName = "Subject" →
          getA i "id" = getA r "ref" →
          findMatch (idTags t "Subject") r = true)) := by
  constructor <;>
  · intro t r hr
    refine ⟨fun hself => ?_, fun i hi hit hid => ?_⟩
    · exact findMatch_of_id_anywhere t _ r r hr ((mem_refTags_iff t _ r).mp hr).1
        ((mem_refTags_iff t _ r).mp hr).2.1 hself
    · exact findMatch_of_id_anywhere t _ r i hr hi hit hid

/-- Witness for C10: the document whose only LegislativeBody reference
is satisfied by the id on the referring element itself passes the
per-reference check. -/
theorem spec_c10_witness :
    findMatch (idTags cfgSelfW "LegislativeBody") lbSelfW = true :=
  (spec_c10.1 cfgSelfW lbSelfW (List.Mem.head _)).1 rfl
